import Mathlib

/-!
Verification of `src/static/js/icons.js` (IconManager, ClassDocs project).

The file is a shallow embedding of the single JavaScript source file:

* DOM elements are modelled as attribute association lists (`getAttribute`
  returns `none` for an absent attribute, mirroring `null`), plus children.
* Each of the element groups touched by the three decoration passes
  (`.nav-item`, `.mobile-menu-toggle`, send buttons, `.file-icon`,
  `.metric-icon`) is modelled by a record carrying exactly the data the
  source reads or writes for that group; a document is the five lists.
  The groups are assumed disjoint, matching the distinct CSS classes.
* Property reads of the icon-map object literal walk the prototype chain:
  names of inherited `Object.prototype` members are truthy even though
  they are not keys of the table (`JSValue`, `iconMapGet`).
* JavaScript exceptions are modelled with an explicit error component.
  Two places in the source can throw in a browser:
  1. line 79, `href.includes('teacher')` when `getAttribute('href')`
     returned `null` (TypeError: includes of null);
  2. line 95, `iconElement.tagName = 'i'`: `tagName` is a getter-only
     accessor on `Element.prototype`, and class bodies are strict-mode
     code, so the assignment raises a TypeError. It runs after the
     `setAttribute` call on line 94, so the attribute is set and then the
     pass aborts; `forEach` propagates the exception, so later items are
     not processed and `applyIcons` never reaches the interface pass.
* `lucide.createIcons()` is an external collaborator with no effect on
  the modelled state; the spec treats it as opaque, and so do we.
* `String.prototype.includes` is `hasSub`; `toLowerCase` and `trim` are
  modelled by the character-list functions `jsToLower` and `jsTrim`
  (they agree with the JavaScript functions on ASCII input).
-/

/-! ## Attribute lists (the DOM attribute API) -/

/-- `getAttribute`: first value bound to key `k`, `none` models `null`. -/
def getAttrList (attrs : List (String × String)) (k : String) : Option String :=
  match attrs with
  | [] => none
  | (a, v) :: rest => if a == k then some v else getAttrList rest k

/-- `hasAttribute`. -/
def hasAttrList (attrs : List (String × String)) (k : String) : Bool :=
  attrs.any (fun p => p.1 == k)

/-- `setAttribute`: replace the binding of `k` when present (attribute names
are unique in a DOM element), append otherwise. -/
def setAttrList : List (String × String) → String → String → List (String × String)
  | [], k, v => [(k, v)]
  | p :: rest, k, v => if p.1 == k then (k, v) :: rest else p :: setAttrList rest k v

/-- A DOM element: its attributes and its child elements. -/
inductive Elt where
  | mk (attrs : List (String × String)) (children : List Elt)

def Elt.attrs : Elt → List (String × String)
  | .mk a _ => a

def Elt.children : Elt → List Elt
  | .mk _ c => c

def Elt.getAttr (e : Elt) (k : String) : Option String :=
  getAttrList e.attrs k

def Elt.hasAttr (e : Elt) (k : String) : Bool :=
  hasAttrList e.attrs k

def Elt.setAttr : Elt → String → String → Elt
  | .mk a c, k, v => .mk (setAttrList a k v) c

/-- `String.prototype.includes` on the underlying character lists. -/
def hasSubList (sub : List Char) : List Char → Bool
  | [] => sub.isEmpty
  | c :: rest => sub.isPrefixOf (c :: rest) || hasSubList sub rest

/-- JavaScript `s.includes(sub)`. -/
def hasSub (s sub : String) : Bool :=
  hasSubList sub.data s.data

/-- JavaScript `s.toLowerCase()` (ASCII-faithful). -/
def jsToLower (s : String) : String :=
  String.mk (s.data.map Char.toLower)

/-- JavaScript `s.trim()` (ASCII-faithful). -/
def jsTrim (s : String) : String :=
  String.mk (((s.data.dropWhile Char.isWhitespace).reverse.dropWhile
    Char.isWhitespace).reverse)

/-! ## The icon map (constructor, lines 7-45) -/

/-- `this.iconMap`, in source order. -/
def iconMap : List (String × String) :=
  [("home", "home"), ("teacher", "graduation-cap"), ("student", "user"),
   ("analytics", "bar-chart-3"), ("bot", "bot"), ("reports", "file-text"),
   ("documents", "folder"),
   ("menu", "menu"), ("send", "send"), ("upload", "upload"),
   ("download", "download"), ("delete", "trash-2"), ("edit", "edit-2"),
   ("search", "search"), ("settings", "settings"), ("close", "x"),
   ("check", "check"), ("plus", "plus"), ("minus", "minus"),
   ("chart", "bar-chart-3"), ("pie-chart", "pie-chart"),
   ("trending-up", "trending-up"), ("trending-down", "trending-down"),
   ("users", "users"), ("clock", "clock"), ("calendar", "calendar"),
   ("success", "check-circle"), ("error", "x-circle"),
   ("warning", "alert-triangle"), ("info", "info")]

/-- A value read from a JavaScript object property: an own string entry, a
member inherited from `Object.prototype` (a function, or the prototype
object itself for `__proto__`), or `undefined`. -/
inductive JSValue where
  | str (s : String)
  | protoFn (name : String)
  | undef
deriving DecidableEq

/-- The property names every object literal inherits from
`Object.prototype`. -/
def objectProtoProps : List String :=
  ["constructor", "hasOwnProperty", "isPrototypeOf", "propertyIsEnumerable",
   "toLocaleString", "toString", "valueOf", "__proto__", "__defineGetter__",
   "__defineSetter__", "__lookupGetter__", "__lookupSetter__"]

/-- The string `setAttribute` writes when handed an inherited member: the
engine renders a function as source-like text (brace characters elided
here; no theorem depends on the exact text) and the prototype object as an
object tag. -/
def protoPropString (name : String) : String :=
  if name == "__proto__" then "[object Object]"
  else "function " ++ name ++ "() [native code]"

/-- JavaScript property read `this.iconMap[k]`.  The read walks the
prototype chain: an own key gives its string entry, the name of an
inherited `Object.prototype` member (`constructor`, `toString`,
`__proto__`, ...) gives that truthy member, and any other name gives
`undefined`. -/
def iconMapGet (k : String) : JSValue :=
  match getAttrList iconMap k with
  | some v => JSValue.str v
  | none => if objectProtoProps.contains k then JSValue.protoFn k else JSValue.undef

/-- JavaScript truthiness of a read property value: the empty string and
`undefined` are falsy; every other string and every inherited member
(functions and objects) is truthy. -/
def JSValue.truthy : JSValue → Bool
  | .str s => !(s == "")
  | .protoFn _ => true
  | .undef => false

/-- The property value as the string `setAttribute` would write, with `d`
for `undefined` (reached only where the source reads an always-present
key or already checked truthiness). -/
def JSValue.getD : JSValue → String → String
  | .str s, _ => s
  | .protoFn n, _ => protoPropString n
  | .undef, d => d

/-! ## addIcon (lines 168-175) -/

/-- `addIcon(element, iconName)`.  The guard `if (this.iconMap[iconName])`
is a truthiness test on the property read, which walks the prototype
chain: own keys give their (nonempty) string, names of inherited
`Object.prototype` members give a truthy function or object that
`setAttribute` then stringifies, and every other name gives falsy
`undefined`.  The trailing `lucide.createIcons()` call is external and has
no effect on the modelled element. -/
def addIcon (element : Elt) (iconName : String) : Elt :=
  if (iconMapGet iconName).truthy then
    element.setAttr "data-lucide" ((iconMapGet iconName).getD "")
  else element

/-- `addIcon` applied to the element at index `i` of a list of elements,
used to state that the rest of the document is untouched. -/
def addIconAt (es : List Elt) (i : Nat) (name : String) : List Elt :=
  match es, i with
  | [], _ => []
  | e :: rest, 0 => addIcon e name :: rest
  | e :: rest, Nat.succ n => e :: addIconAt rest n name

/-! ## Navigation pass (lines 67-99) -/

/-- A JavaScript runtime exception. -/
inductive JSError where
  | typeError (msg : String)
deriving DecidableEq

/-- A `.nav-item` element: `href := getAttribute('href')` (`none` for `null`),
its `textContent`, and the result of `querySelector('.nav-item-icon')`. -/
structure NavItem where
  href : Option String
  textContent : String
  icon : Option Elt

/-- The cascading conditional of lines 77-91 computing `iconName`.
`this.iconMap.home` etc. are reads of always-present keys; `.getD ""`
reflects that both `undefined` and `''` are falsy at line 93.
When `href` is `null`, line 77 compares it (false) and line 79 then calls
`href.includes('teacher')`, a TypeError; lines 81 and 83 are only reached
with a non-null `href`. -/
def navIconName (href : Option String) (text : String) : Except JSError String :=
  if href == some "/" || href == some "/index" then
    Except.ok ((iconMapGet "home").getD "")
  else if href == some "/teacher" then
    Except.ok ((iconMapGet "teacher").getD "")
  else
    match href with
    | none => Except.error (JSError.typeError "includes of null")
    | some h =>
      if hasSub h "teacher" then Except.ok ((iconMapGet "teacher").getD "")
      else if h == "/student" || hasSub h "student" then
        Except.ok ((iconMapGet "student").getD "")
      else if h == "/analytics" || hasSub h "analytics" then
        Except.ok ((iconMapGet "analytics").getD "")
      else if hasSub text "Tutor IA" then Except.ok ((iconMapGet "bot").getD "")
      else if hasSub text "Relatório" then Except.ok ((iconMapGet "reports").getD "")
      else if hasSub text "Documento" then Except.ok ((iconMapGet "documents").getD "")
      else Except.ok ""

/-- The body of the `forEach` at lines 70-98 for one `.nav-item`.  Returns the
updated item and the exception it raised, if any.  When `iconName` is truthy,
line 94 sets the attribute and line 95 (`iconElement.tagName = 'i'`) then
raises a TypeError: `tagName` has no setter and class code is strict. -/
def navStep (item : NavItem) : NavItem × Option JSError :=
  match item.icon with
  | some iconElement =>
    if iconElement.hasAttr "data-lucide" then (item, none)
    else
      match navIconName item.href item.textContent with
      | Except.error e => (item, some e)
      | Except.ok iconName =>
        if iconName == "" then (item, none)
        else
          ({ item with icon := some (iconElement.setAttr "data-lucide" iconName) },
           some (JSError.typeError "tagName is read-only"))
  | none => (item, none)

/-- `applyNavigationIcons()`: the `forEach` over `.nav-item` elements.  An
exception propagates out of `forEach`, leaving the remaining items
unprocessed. -/
def applyNavigationIcons : List NavItem → List NavItem × Option JSError
  | [] => ([], none)
  | item :: rest =>
    match navStep item with
    | (item', some e) => (item' :: rest, some e)
    | (item', none) =>
      match applyNavigationIcons rest with
      | (rest', e') => (item' :: rest', e')

/-! ## Interface pass (lines 104-163) -/

/-- A `.mobile-menu-toggle` button, tracked by the `data-lucide` values of
its descendants (`querySelector('[data-lucide]')` succeeds iff the list is
nonempty). -/
structure MenuButton where
  lucideDescs : List String

/-- Lines 107-111: `btn.innerHTML = '<i data-lucide="menu"></i>'` replaces
all children with a single icon element. -/
def menuStep (btn : MenuButton) : MenuButton :=
  if btn.lucideDescs.isEmpty then { lucideDescs := ["menu"] } else btn

/-- A send button (`#sendButton, .send-button`): its `svg.send-icon`
descendants in document order, each recorded by its optional `data-lucide`
attribute value (`querySelector` returns the first), and the `data-lucide`
values of its other descendants. -/
structure SendButton where
  sendSvgs : List (Option String)
  lucideDescs : List String

/-- Lines 115-120: the first `svg.send-icon`, when present, is replaced via
`outerHTML` by an icon element.  There is no `data-lucide` guard here: the
replaced svg is removed from the document together with any `data-lucide`
attribute it carried; other descendants are untouched. -/
def sendStep (btn : SendButton) : SendButton :=
  match btn.sendSvgs with
  | [] => btn
  | _ :: rest => { sendSvgs := rest, lucideDescs := btn.lucideDescs ++ ["send"] }

/-- A `.file-icon` element: its attributes, its `textContent`, and the
`textContent` of `closest('.document-item, .metric-card')` (`none` when
there is no such ancestor). -/
structure FileIcon where
  attrs : List (String × String)
  textContent : String
  parentText : Option String

/-- Lines 124-140. -/
def fileStep (icon : FileIcon) : FileIcon :=
  if !(hasAttrList icon.attrs "data-lucide") && jsTrim icon.textContent == "" then
    match icon.parentText with
    | some ptext =>
      let text := jsToLower ptext
      if hasSub text "professor" || hasSub text "teacher" then
        { icon with attrs := setAttrList icon.attrs "data-lucide" ((iconMapGet "teacher").getD "") }
      else if hasSub text "estudante" || hasSub text "student" then
        { icon with attrs := setAttrList icon.attrs "data-lucide" ((iconMapGet "student").getD "") }
      else if hasSub text "analytics" || hasSub text "métricas" then
        { icon with attrs := setAttrList icon.attrs "data-lucide" ((iconMapGet "analytics").getD "") }
      else
        { icon with attrs := setAttrList icon.attrs "data-lucide" ((iconMapGet "documents").getD "") }
    | none => icon
  else icon

/-- A `.metric-icon` element: attributes, `textContent`, and the
`textContent` of `closest('.metric-card')`. -/
structure MetricIcon where
  attrs : List (String × String)
  textContent : String
  parentText : Option String

/-- Lines 144-162.  Note the string literals: unlike every other pass, this
one writes `'message-circle'`, `'users'`, `'book'`, `'clock'`,
`'bar-chart-3'` directly rather than reading `this.iconMap`. -/
def metricStep (icon : MetricIcon) : MetricIcon :=
  if !(hasAttrList icon.attrs "data-lucide") && jsTrim icon.textContent == "" then
    match icon.parentText with
    | some ptext =>
      let text := jsToLower ptext
      if hasSub text "pergunta" || hasSub text "questão" then
        { icon with attrs := setAttrList icon.attrs "data-lucide" "message-circle" }
      else if hasSub text "estudante" || hasSub text "usuário" then
        { icon with attrs := setAttrList icon.attrs "data-lucide" "users" }
      else if hasSub text "disciplina" || hasSub text "matéria" then
        { icon with attrs := setAttrList icon.attrs "data-lucide" "book" }
      else if hasSub text "tempo" || hasSub text "resposta" then
        { icon with attrs := setAttrList icon.attrs "data-lucide" "clock" }
      else
        { icon with attrs := setAttrList icon.attrs "data-lucide" "bar-chart-3" }
    | none => icon
  else icon

/-- The live document, restricted to the element groups the source touches.
The five selector groups are modelled as disjoint lists. -/
structure JSDocument where
  navItems : List NavItem
  menuButtons : List MenuButton
  sendButtons : List SendButton
  fileIcons : List FileIcon
  metricIcons : List MetricIcon

/-- `applyInterfaceIcons()` (lines 104-163): the four `forEach` loops.  None
of its statements can throw. -/
def applyInterfaceIcons (d : JSDocument) : JSDocument :=
  { d with
    menuButtons := d.menuButtons.map menuStep,
    sendButtons := d.sendButtons.map sendStep,
    fileIcons := d.fileIcons.map fileStep,
    metricIcons := d.metricIcons.map metricStep }

/-- `applyIcons()` (lines 51-62): navigation pass, then interface pass, then
the external `lucide.createIcons()` (opaque, no modelled effect).  An
exception from the navigation pass propagates, skipping the rest. -/
def applyIcons (d : JSDocument) : JSDocument × Option JSError :=
  match applyNavigationIcons d.navItems with
  | (nav', some e) => ({ d with navItems := nav' }, some e)
  | (nav', none) => (applyInterfaceIcons { d with navItems := nav' }, none)

/-! ## init (lines 180-193) -/

/-- The outcome of `IconManager.init()`: the document after any synchronous
work, any exception raised synchronously, and the list of
`DOMContentLoaded` callbacks registered. -/
structure InitResult where
  doc : JSDocument
  err : Option JSError
  callbacks : List (JSDocument → JSDocument × Option JSError)

/-- `IconManager.init()`: while the document is still loading it registers
exactly one one-time `DOMContentLoaded` callback that will run
`applyIcons`; otherwise it runs `applyIcons` synchronously. -/
def init (readyState : String) (d : JSDocument) : InitResult :=
  if readyState == "loading" then
    { doc := d, err := none, callbacks := [fun doc => applyIcons doc] }
  else
    { doc := (applyIcons d).1, err := (applyIcons d).2, callbacks := [] }

/-! ## Spec-side definitions -/

/-- Modelled from the spec (design note in section 9): the navigation
heuristics as an explicit ordered list of (predicate, result) pairs.  The
results are the mapped identifiers of the lookup table. -/
def navRules : List ((Option String → String → Bool) × String) :=
  [(fun href _ => href == some "/" || href == some "/index",
    (iconMapGet "home").getD ""),
   (fun href _ => href == some "/teacher" || hasSub (href.getD "") "teacher",
    (iconMapGet "teacher").getD ""),
   (fun href _ => href == some "/student" || hasSub (href.getD "") "student",
    (iconMapGet "student").getD ""),
   (fun href _ => href == some "/analytics" || hasSub (href.getD "") "analytics",
    (iconMapGet "analytics").getD ""),
   (fun _ text => hasSub text "Tutor IA", (iconMapGet "bot").getD ""),
   (fun _ text => hasSub text "Relatório", (iconMapGet "reports").getD ""),
   (fun _ text => hasSub text "Documento", (iconMapGet "documents").getD "")]

/-- First matching rule wins; no match yields the falsy `""`. -/
def firstMatch (rules : List ((Option String → String → Bool) × String))
    (href : Option String) (text : String) : String :=
  match rules with
  | [] => ""
  | (p, r) :: rest => if p href text then r else firstMatch rest href text

/-! ## Collected icon identifiers of a document -/

/-- The `data-lucide` value of the icon child of a `.nav-item`, if any. -/
def navItemValues (m : NavItem) : List String :=
  match m.icon with
  | some ic =>
    match ic.getAttr "data-lucide" with
    | some v => [v]
    | none => []
  | none => []

/-- The `data-lucide` value of a `.file-icon`, if any. -/
def fileIconValues (ic : FileIcon) : List String :=
  match getAttrList ic.attrs "data-lucide" with
  | some v => [v]
  | none => []

/-- The `data-lucide` value of a `.metric-icon`, if any. -/
def metricIconValues (ic : MetricIcon) : List String :=
  match getAttrList ic.attrs "data-lucide" with
  | some v => [v]
  | none => []

/-- The `data-lucide` values present in a send button, those of its
`svg.send-icon` descendants included. -/
def sendButtonValues (b : SendButton) : List String :=
  b.lucideDescs ++ b.sendSvgs.filterMap id

/-- Every `data-lucide` value present in the modelled document. -/
def lucideValuesDoc (d : JSDocument) : List String :=
  (d.navItems.map navItemValues).flatten
    ++ (d.menuButtons.map MenuButton.lucideDescs).flatten
    ++ (d.sendButtons.map sendButtonValues).flatten
    ++ (d.fileIcons.map fileIconValues).flatten
    ++ (d.metricIcons.map metricIconValues).flatten

/-- The identifiers of the lookup table. -/
def iconMapValues : List String :=
  iconMap.map Prod.snd

/-! ## Concrete documents used in witnesses and counterexamples -/

/-- An element with no attributes and no children. -/
def emptyElt : Elt := Elt.mk [] []

/-- The empty document. -/
def emptyDoc : JSDocument :=
  { navItems := [], menuButtons := [], sendButtons := [], fileIcons := [], metricIcons := [] }

/-- A `.nav-item` with no `href` attribute and a bare icon child. -/
def noHrefItem : NavItem :=
  { href := none, textContent := "Docs", icon := some emptyElt }

/-- A document containing only `noHrefItem`. -/
def noHrefDoc : JSDocument :=
  { emptyDoc with navItems := [noHrefItem] }

/-- A teacher `.nav-item` with a bare icon child. -/
def teacherItem : NavItem :=
  { href := some "/teacher", textContent := "Professor", icon := some emptyElt }

/-- `teacherItem` after its icon child receives the teacher identifier. -/
def teacherItemSet : NavItem :=
  { teacherItem with icon := some (Elt.mk [("data-lucide", "graduation-cap")] []) }

/-- A `.nav-item` with no `href` attribute whose text matches the Tutor IA
fallback rule. -/
def botItem : NavItem :=
  { href := none, textContent := "Tutor IA", icon := some emptyElt }

/-- A `.nav-item` matching no navigation rule. -/
def noMatchItem : NavItem :=
  { href := some "/x", textContent := "Chat", icon := some emptyElt }

/-- A document whose only decorated element is a metric icon inside a card
about answered questions. -/
def perguntaDoc : JSDocument :=
  { emptyDoc with
    metricIcons := [{ attrs := [], textContent := "", parentText := some "Perguntas respondidas" }] }

/-- A document whose only send button contains two `svg.send-icon`
descendants. -/
def twoSvgDoc : JSDocument :=
  { emptyDoc with sendButtons := [{ sendSvgs := [none, none], lucideDescs := [] }] }

/-- A document whose only send button contains one `svg.send-icon`. -/
def oneSvgDoc : JSDocument :=
  { emptyDoc with sendButtons := [{ sendSvgs := [none], lucideDescs := [] }] }

/-- A file icon with empty text inside a student document card. -/
def studentFileIcon : FileIcon :=
  { attrs := [], textContent := "", parentText := some "Estudante Ana" }

/-- A file icon with empty text inside a card whose text matches nothing. -/
def plainFileIcon : FileIcon :=
  { attrs := [], textContent := "", parentText := some "Resumo geral" }

/-- An element with one ordinary attribute. -/
def sampleElt : Elt := Elt.mk [("class", "icon")] []

/-- A `.nav-item` whose icon child already carries an icon attribute. -/
def guardedItem : NavItem :=
  { href := some "/teacher", textContent := "Professor",
    icon := some (Elt.mk [("data-lucide", "home")] []) }

/-- A `.file-icon` already carrying an icon attribute. -/
def lockedFileIcon : FileIcon :=
  { attrs := [("data-lucide", "folder")], textContent := "", parentText := some "Estudante" }

/-- A `.metric-icon` already carrying an icon attribute. -/
def lockedMetricIcon : MetricIcon :=
  { attrs := [("data-lucide", "clock")], textContent := "", parentText := some "Tempo" }

/-! ## Attribute-list lemmas -/

theorem getAttr_setAttr_self (a : List (String × String)) (k v : String) :
    getAttrList (setAttrList a k v) k = some v := by
  induction a with
  | nil => simp [setAttrList, getAttrList]
  | cons p rest ih =>
    by_cases h : p.1 = k
    · simp [setAttrList, getAttrList, h]
    · simp [setAttrList, getAttrList, h, ih]

theorem getAttr_setAttr_ne (a : List (String × String)) (k v k' : String)
    (hk : k' ≠ k) : getAttrList (setAttrList a k v) k' = getAttrList a k' := by
  induction a with
  | nil => simp [setAttrList, getAttrList, Ne.symm hk]
  | cons p rest ih =>
    by_cases h : p.1 = k
    · simp [setAttrList, getAttrList, h, Ne.symm hk]
    · simp [setAttrList, getAttrList, h, ih]

theorem hasAttr_setAttr_self (a : List (String × String)) (k v : String) :
    hasAttrList (setAttrList a k v) k = true := by
  induction a with
  | nil => simp [setAttrList, hasAttrList]
  | cons p rest ih =>
    by_cases h : p.1 = k
    · simp [setAttrList, hasAttrList, h]
    · simp [setAttrList, hasAttrList, h]
      simpa [hasAttrList] using ih

/-! ## Lookup-table evaluation lemmas -/

theorem iconMapGet_home : (iconMapGet "home").getD "" = "home" := rfl

theorem iconMapGet_teacher : (iconMapGet "teacher").getD "" = "graduation-cap" := rfl

theorem iconMapGet_student : (iconMapGet "student").getD "" = "user" := rfl

theorem iconMapGet_analytics : (iconMapGet "analytics").getD "" = "bar-chart-3" := rfl

theorem iconMapGet_bot : (iconMapGet "bot").getD "" = "bot" := rfl

theorem iconMapGet_reports : (iconMapGet "reports").getD "" = "file-text" := rfl

theorem iconMapGet_documents : (iconMapGet "documents").getD "" = "folder" := rfl

/-! ## Navigation-pass lemmas -/

theorem navStep_guarded (m : NavItem) (ic : Elt) (hm : m.icon = some ic)
    (h : ic.hasAttr "data-lucide" = true) : navStep m = (m, none) := by
  unfold navStep
  simp [hm, h]

theorem navStep_none_eq (m m' : NavItem) (h : navStep m = (m', none)) : m' = m := by
  unfold navStep at h
  cases hm : m.icon with
  | none =>
    simp only [hm] at h
    injection h with h1 h2
    exact h1.symm
  | some ic =>
    simp only [hm] at h
    split at h
    · injection h with h1 h2; exact h1.symm
    · split at h
      · simp at h
      · split at h
        · injection h with h1 h2; exact h1.symm
        · simp at h

theorem applyNav_none_eq (l : List NavItem)
    (h : (applyNavigationIcons l).2 = none) : (applyNavigationIcons l).1 = l := by
  induction l with
  | nil => rfl
  | cons x rest ih =>
    unfold applyNavigationIcons at h ⊢
    cases hs : navStep x with
    | mk x' e =>
      cases e with
      | some err =>
        simp only [hs] at h
        exact Option.noConfusion h
      | none =>
        simp only [hs] at h ⊢
        cases hr : applyNavigationIcons rest with
        | mk rest' e' =>
          simp only [hr] at h ⊢
          have hx := navStep_none_eq x x' hs
          have hrest : rest' = rest := by
            have h2 : (applyNavigationIcons rest).2 = none := by rw [hr]; exact h
            have h3 := ih h2
            rw [hr] at h3
            exact h3
          simp [hx, hrest]

theorem applyNav_get_unchanged (l : List NavItem) (i : Nat) (m : NavItem)
    (hget : l[i]? = some m) (hstep : navStep m = (m, none)) :
    (applyNavigationIcons l).1[i]? = some m := by
  induction l generalizing i with
  | nil => simp at hget
  | cons x rest ih =>
    unfold applyNavigationIcons
    cases hs : navStep x with
    | mk x' e =>
      simp only [hs]
      cases e with
      | some err =>
        cases i with
        | zero =>
          simp at hget
          subst hget
          rw [hstep] at hs
          injection hs with h1 h2
          exact absurd h2.symm (by simp)
        | succ n =>
          simp at hget
          simpa using hget
      | none =>
        cases hr : applyNavigationIcons rest with
        | mk rest' e' =>
          simp only [hr]
          cases i with
          | zero =>
            simp at hget
            subst hget
            rw [hstep] at hs
            injection hs with h1 h2
            simp [h1]
          | succ n =>
            simp at hget
            have h3 := ih n hget
            rw [hr] at h3
            simpa using h3

/-! ## Claim C2 -/

/-- Claim C2: refuted on the code as written.  The claim says no input
document makes any pass throw and that a navigation item without an `href`
attribute is skipped.  On a document whose single `.nav-item` has no `href`
attribute and a bare icon child, line 79 (`href.includes('teacher')`)
dereferences `null` and `applyIcons` propagates the TypeError; the
interface pass never runs. -/
theorem applyIcons_throws_on_null_href :
    applyIcons noHrefDoc = (noHrefDoc, some (JSError.typeError "includes of null")) := rfl

/-! ## Claim C3 -/

/-- Claim C3: counterexample.  `constructor` is not a key of the lookup
table, yet `this.iconMap['constructor']` resolves through
`Object.prototype` to a truthy function, so the guard at line 169 passes
and `addIcon(el, "constructor")` modifies the element, contradicting the
claim that `addIcon` silently no-ops on any unknown name. -/
theorem addIcon_proto_name_cex :
    getAttrList iconMap "constructor" = none ∧
    emptyElt.getAttr "data-lucide" = none ∧
    (addIcon emptyElt "constructor").getAttr "data-lucide"
      = some (protoPropString "constructor") := ⟨rfl, rfl, rfl⟩

/-- Claim C3 as amended: `addIcon(el, "success")` sets `check-circle`;
`addIcon(el, "nonexistent")` leaves the element unmodified; `addIcon`
silently no-ops on every name that is neither a key of the table nor the
name of an inherited `Object.prototype` member; but for the inherited
names (`constructor`, `toString`, `__proto__`, ...) the truthiness guard
passes and the attribute is set to the stringified inherited value. -/
theorem addIcon_known_and_unknown (el : Elt) :
    (addIcon el "success").getAttr "data-lucide" = some "check-circle" ∧
    addIcon el "nonexistent" = el ∧
    (∀ name, getAttrList iconMap name = none →
      objectProtoProps.contains name = false → addIcon el name = el) ∧
    (∀ name, getAttrList iconMap name = none →
      objectProtoProps.contains name = true →
      addIcon el name = el.setAttr "data-lucide" (protoPropString name)) := by
  refine ⟨?_, rfl, ?_, ?_⟩
  · have h : addIcon el "success" = el.setAttr "data-lucide" "check-circle" := rfl
    rw [h]
    cases el with
    | mk a c => simp [Elt.setAttr, Elt.getAttr, Elt.attrs, getAttr_setAttr_self]
  · intro name h1 h2
    have h3 : name ∉ objectProtoProps := by simpa using h2
    unfold addIcon iconMapGet
    rw [h1]
    simp [h3, JSValue.truthy]
  · intro name h1 h2
    have h3 : name ∈ objectProtoProps := by simpa using h2
    unfold addIcon iconMapGet
    rw [h1]
    simp [h3, JSValue.truthy, JSValue.getD]

/-- Witness for the amended C3 at concrete names: a plain unknown name is
a no-op, an inherited prototype name is not. -/
theorem addIcon_known_and_unknown_w :
    (addIcon sampleElt "success").getAttr "data-lucide" = some "check-circle" ∧
    addIcon sampleElt "nonexistent" = sampleElt ∧
    (getAttrList iconMap "foo" = none ∧ objectProtoProps.contains "foo" = false ∧
      addIcon sampleElt "foo" = sampleElt) ∧
    (getAttrList iconMap "toString" = none ∧ objectProtoProps.contains "toString" = true ∧
      addIcon sampleElt "toString"
        = sampleElt.setAttr "data-lucide" (protoPropString "toString")) := by
  have h := addIcon_known_and_unknown sampleElt
  exact ⟨h.1, h.2.1, ⟨rfl, rfl, h.2.2.1 "foo" rfl rfl⟩,
    ⟨rfl, rfl, h.2.2.2 "toString" rfl rfl⟩⟩

/-! ## Claim C4 -/

/-- Claim C4: evaluation at the failing input.  On a document with two
teacher navigation items, the pass sets the first icon child to
`graduation-cap` (line 94) and then throws a TypeError at line 95
(`iconElement.tagName = 'i'` assigns a getter-only property in strict-mode
class code); the second matching item is never processed, contradicting
the claim that every matching item ends up with the mapped identifier. -/
theorem navPass_aborts_after_first_set :
    applyNavigationIcons [teacherItem, teacherItem]
      = ([teacherItemSet, teacherItem], some (JSError.typeError "tagName is read-only")) := rfl

/-! ## Claim C7 -/

/-- Claim C7: `init()` with a readiness state other than `loading` runs
`applyIcons` synchronously and registers no callback; with the document
still loading it registers exactly one `DOMContentLoaded` callback, namely
`applyIcons`, and mutates nothing now. -/
theorem init_applies_sync (rs : String) (d : JSDocument) :
    (rs ≠ "loading" →
      init rs d = { doc := (applyIcons d).1, err := (applyIcons d).2, callbacks := [] }) ∧
    init "loading" d = { doc := d, err := none, callbacks := [fun doc => applyIcons doc] } := by
  constructor
  · intro h
    unfold init
    simp [h]
  · rfl

/-- Witness for C7 with readiness state `complete` and the empty document. -/
theorem init_applies_sync_w :
    ("complete" ≠ "loading") ∧
    init "complete" emptyDoc
      = { doc := (applyIcons emptyDoc).1, err := (applyIcons emptyDoc).2, callbacks := [] } ∧
    init "loading" emptyDoc
      = { doc := emptyDoc, err := none, callbacks := [fun doc => applyIcons doc] } :=
  ⟨by decide, (init_applies_sync "complete" emptyDoc).1 (by decide),
   (init_applies_sync "loading" emptyDoc).2⟩

/-! ## Claim C1 -/

/-- Claim C1: counterexample.  `addIcon` has no existing-attribute guard
(lines 168-175): on an element whose `data-lucide` attribute is `home`,
`addIcon(el, "success")` overwrites it with `check-circle`, so the claim
that no operation, `addIcon` included, changes an existing icon attribute
is false. -/
theorem addIcon_overwrites_existing_cex :
    (Elt.mk [("data-lucide", "home")] []).getAttr "data-lucide" = some "home" ∧
    (addIcon (Elt.mk [("data-lucide", "home")] []) "success").getAttr "data-lucide"
      = some "check-circle" := ⟨rfl, rfl⟩

/-- Claim C1 as amended: the navigation pass and the menu, file and metric
groups of the interface pass never change an element that already carries
a `data-lucide` attribute, and the send pass preserves every carrier
among a send button's other descendants; but the send pass replaces the
first `svg.send-icon` of each send button with no `data-lucide` guard,
destroying that svg together with any icon attribute it carried, and
`addIcon` overwrites unconditionally whenever its name reads truthy. -/
theorem passes_never_overwrite :
    (∀ (l : List NavItem) (i : Nat) (m : NavItem) (ic : Elt),
        l[i]? = some m → m.icon = some ic → ic.hasAttr "data-lucide" = true →
        (applyNavigationIcons l).1[i]? = some m) ∧
    (∀ b : MenuButton, b.lucideDescs ≠ [] → menuStep b = b) ∧
    (∀ (b : SendButton) (v : String), v ∈ b.lucideDescs → v ∈ (sendStep b).lucideDescs) ∧
    (∀ (b : SendButton) (x : Option String) (rest : List (Option String)),
        b.sendSvgs = x :: rest → (sendStep b).sendSvgs = rest) ∧
    (∀ ic : FileIcon, hasAttrList ic.attrs "data-lucide" = true → fileStep ic = ic) ∧
    (∀ ic : MetricIcon, hasAttrList ic.attrs "data-lucide" = true → metricStep ic = ic) := by
  refine ⟨?_, ?_, ?_, ?_, ?_, ?_⟩
  · intro l i m ic hget hic hattr
    exact applyNav_get_unchanged l i m hget (navStep_guarded m ic hic hattr)
  · intro b hb
    unfold menuStep
    simp [List.isEmpty_iff, hb]
  · intro b v hv
    unfold sendStep
    split
    · exact hv
    · simp [hv]
  · intro b x rest hb
    unfold sendStep
    rw [hb]
  · intro ic h
    unfold fileStep
    simp [h]
  · intro ic h
    unfold metricStep
    simp [h]

/-- Witness for the amended C1 at concrete guarded elements. -/
theorem passes_never_overwrite_w :
    ([guardedItem][0]? = some guardedItem ∧
     (applyNavigationIcons [guardedItem]).1[0]? = some guardedItem) ∧
    menuStep (MenuButton.mk ["menu"]) = MenuButton.mk ["menu"] ∧
    "send" ∈ (sendStep (SendButton.mk [none] ["send"])).lucideDescs ∧
    ((SendButton.mk [some "upload"] []).sendSvgs = some "upload" :: [] ∧
     (sendStep (SendButton.mk [some "upload"] [])).sendSvgs = []) ∧
    fileStep lockedFileIcon = lockedFileIcon ∧
    metricStep lockedMetricIcon = lockedMetricIcon := by
  refine ⟨⟨rfl, ?_⟩, ?_, ?_, ⟨rfl, ?_⟩, ?_, ?_⟩
  · exact passes_never_overwrite.1 [guardedItem] 0 guardedItem
      (Elt.mk [("data-lucide", "home")] []) rfl rfl (by decide)
  · exact passes_never_overwrite.2.1 (MenuButton.mk ["menu"]) (by decide)
  · exact passes_never_overwrite.2.2.1 (SendButton.mk [none] ["send"]) "send" (by decide)
  · exact passes_never_overwrite.2.2.2.1 (SendButton.mk [some "upload"] [])
      (some "upload") [] rfl
  · exact passes_never_overwrite.2.2.2.2.1 lockedFileIcon (by decide)
  · exact passes_never_overwrite.2.2.2.2.2 lockedMetricIcon (by decide)

/-! ## Claim C10 -/

/-- Claim C10: for a name that is a key of the lookup table, `addIcon`
touches only the `data-lucide` attribute of the element it is given: the
children and every other attribute are unchanged, and every other element
of the document is unchanged. -/
theorem addIcon_frame (el : Elt) (name v : String)
    (hv : getAttrList iconMap name = some v) :
    ((addIcon el name).children = el.children ∧
      ∀ k, k ≠ "data-lucide" → (addIcon el name).getAttr k = el.getAttr k) ∧
    (∀ (es : List Elt) (i j : Nat), j ≠ i → (addIconAt es i name)[j]? = es[j]?) := by
  constructor
  · unfold addIcon
    by_cases ht : (iconMapGet name).truthy = true
    · rw [if_pos ht]
      cases el with
      | mk a c =>
        refine ⟨rfl, ?_⟩
        intro k hk
        simp [Elt.setAttr, Elt.getAttr, Elt.attrs, getAttr_setAttr_ne _ _ _ _ hk]
    · rw [if_neg ht]
      exact ⟨rfl, fun k hk => rfl⟩
  · intro es
    induction es with
    | nil => intro i j hj; rfl
    | cons e rest ih =>
      intro i j hj
      cases i with
      | zero =>
        cases j with
        | zero => exact absurd rfl hj
        | succ n => simp [addIconAt]
      | succ ni =>
        cases j with
        | zero => simp [addIconAt]
        | succ nj =>
          simp only [addIconAt, List.getElem?_cons_succ]
          exact ih ni nj (fun hh => hj (congrArg Nat.succ hh))

/-- Witness for C10 with the key `menu` at a two-element document. -/
theorem addIcon_frame_w :
    getAttrList iconMap "menu" = some "menu" ∧
    (addIcon sampleElt "menu").children = sampleElt.children ∧
    ("class" ≠ "data-lucide" ∧
      (addIcon sampleElt "menu").getAttr "class" = sampleElt.getAttr "class") ∧
    ((1 : Nat) ≠ 0 ∧ (addIconAt [sampleElt, emptyElt] 0 "menu")[1]? = [sampleElt, emptyElt][1]?) := by
  have h := addIcon_frame sampleElt "menu" "menu" rfl
  exact ⟨rfl, h.1.1, ⟨by decide, h.1.2 "class" (by decide)⟩,
    ⟨by decide, h.2 [sampleElt, emptyElt] 0 1 (by decide)⟩⟩

/-! ## Claim C5 -/

theorem some_beq_some (a b : String) : (some a == some b) = (a == b) := rfl

/-- The cascading conditionals of lines 77-91 compute exactly the
first-match semantics of the ordered rule list. -/
theorem navIconName_eq_firstMatch (s text : String) :
    navIconName (some s) text = Except.ok (firstMatch navRules (some s) text) := by
  simp only [navIconName, navRules, firstMatch, Option.getD_some, some_beq_some,
    iconMapGet_home, iconMapGet_teacher, iconMapGet_student, iconMapGet_analytics,
    iconMapGet_bot, iconMapGet_reports, iconMapGet_documents]
  by_cases h1 : (s == "/" || s == "/index") = true
  · simp [h1]
  · by_cases h2 : (s == "/teacher") = true
    · simp [h1, h2]
    · by_cases h3 : hasSub s "teacher" = true
      · simp [h1, h2, h3]
      · by_cases h4 : (s == "/student" || hasSub s "student") = true
        · simp [h1, h2, h3, h4]
        · by_cases h5 : (s == "/analytics" || hasSub s "analytics") = true
          · simp [h1, h2, h3, h4, h5]
          · by_cases h6 : hasSub text "Tutor IA" = true
            · simp [h1, h2, h3, h4, h5, h6]
            · by_cases h7 : hasSub text "Relatório" = true
              · simp [h1, h2, h3, h4, h5, h6, h7]
              · by_cases h8 : hasSub text "Documento" = true
                · simp [h1, h2, h3, h4, h5, h6, h7, h8]
                · simp [h1, h2, h3, h4, h5, h6, h7, h8]

/-- Claim C5: counterexample.  The claim covers every processed navigation
item, but on an item with no `href` attribute whose text matches the
Tutor IA fallback, the ordered-rule semantics pick `bot` while the code
throws a TypeError at line 79 (`href.includes('teacher')` on `null`)
before any text fallback is reached, and no icon is set. -/
theorem nav_priority_null_href_cex :
    firstMatch navRules none "Tutor IA" = "bot" ∧
    navStep botItem = (botItem, some (JSError.typeError "includes of null")) :=
  ⟨by decide, rfl⟩

/-- Claim C5 as amended: for every navigation item whose `href` attribute
is present, the rules are evaluated in the fixed priority order home,
teacher, student, analytics, then the text fallbacks: the computed icon
name is that of the first matching rule of the ordered rule list, and
when no rule matches the item is left unchanged with no icon set.  When
the `href` attribute is absent, the evaluation instead throws a TypeError
at the teacher rule and sets no icon, so the text fallbacks never
apply. -/
theorem nav_priority_order :
    (∀ (s text : String),
      navIconName (some s) text = Except.ok (firstMatch navRules (some s) text)) ∧
    (∀ (m : NavItem) (s : String), m.href = some s →
      firstMatch navRules (some s) m.textContent = "" → navStep m = (m, none)) ∧
    (∀ (m : NavItem) (ic : Elt), m.href = none → m.icon = some ic →
      ic.hasAttr "data-lucide" = false →
      navStep m = (m, some (JSError.typeError "includes of null"))) := by
  refine ⟨navIconName_eq_firstMatch, ?_, ?_⟩
  · intro m s hhref hfm
    unfold navStep
    cases hic : m.icon with
    | none => rfl
    | some ic =>
      simp only [hic]
      by_cases hattr : ic.hasAttr "data-lucide" = true
      · simp [hattr]
      · have h1 : navIconName m.href m.textContent = Except.ok "" := by
          rw [hhref, navIconName_eq_firstMatch, hfm]
        simp [hattr, h1]
  · intro m ic hhref hic hattr
    unfold navStep
    simp only [hic]
    have he : navIconName m.href m.textContent
        = Except.error (JSError.typeError "includes of null") := by
      rw [hhref]
      rfl
    simp [hattr, he]

/-- Witness for the amended C5: the teacher rule fires on `/teacher`, an
item matching no rule is unchanged, and a null-href item throws. -/
theorem nav_priority_order_w :
    navIconName (some "/teacher") "x" = Except.ok (firstMatch navRules (some "/teacher") "x") ∧
    (noMatchItem.href = some "/x" ∧
     firstMatch navRules (some "/x") noMatchItem.textContent = "" ∧
     navStep noMatchItem = (noMatchItem, none)) ∧
    (noHrefItem.href = none ∧ noHrefItem.icon = some emptyElt ∧
     emptyElt.hasAttr "data-lucide" = false ∧
     navStep noHrefItem = (noHrefItem, some (JSError.typeError "includes of null"))) :=
  ⟨nav_priority_order.1 "/teacher" "x",
   ⟨rfl, by decide, nav_priority_order.2.1 noMatchItem "/x" rfl (by decide)⟩,
   ⟨rfl, rfl, by decide,
    nav_priority_order.2.2 noHrefItem emptyElt rfl rfl (by decide)⟩⟩

/-! ## Claim C9 -/

theorem menuStep_idem (b : MenuButton) : menuStep (menuStep b) = menuStep b := by
  unfold menuStep
  by_cases h : b.lucideDescs.isEmpty = true
  · simp [h]
  · simp [h]

theorem sendStep_idem (b : SendButton) (h : b.sendSvgs.length ≤ 1) :
    sendStep (sendStep b) = sendStep b := by
  obtain ⟨svgs, ds⟩ := b
  cases svgs with
  | nil => rfl
  | cons x rest =>
    cases rest with
    | nil => rfl
    | cons y rest2 =>
      exfalso
      have hk : (x :: y :: rest2).length ≤ 1 := h
      simp only [List.length_cons] at hk
      omega

theorem fileStep_of_hasAttr (ic : FileIcon)
    (h : hasAttrList ic.attrs "data-lucide" = true) : fileStep ic = ic := by
  unfold fileStep
  simp [h]

theorem fileStep_cases (ic : FileIcon) :
    fileStep ic = ic ∨
      ∃ v, fileStep ic = { ic with attrs := setAttrList ic.attrs "data-lucide" v } := by
  unfold fileStep
  by_cases hg : (!hasAttrList ic.attrs "data-lucide" && (jsTrim ic.textContent == "")) = true
  · cases hpt : ic.parentText with
    | none => simp [hg, hpt]
    | some pt =>
      simp only [hg, hpt, if_true]
      right
      split_ifs <;> exact ⟨_, rfl⟩
  · simp [hg]

theorem fileStep_idem (ic : FileIcon) : fileStep (fileStep ic) = fileStep ic := by
  rcases fileStep_cases ic with h | ⟨v, h⟩
  · simp only [h]
  · rw [h]
    exact fileStep_of_hasAttr _ (by simp [hasAttr_setAttr_self])

theorem metricStep_of_hasAttr (ic : MetricIcon)
    (h : hasAttrList ic.attrs "data-lucide" = true) : metricStep ic = ic := by
  unfold metricStep
  simp [h]

theorem metricStep_cases (ic : MetricIcon) :
    metricStep ic = ic ∨
      ∃ v, metricStep ic = { ic with attrs := setAttrList ic.attrs "data-lucide" v } := by
  unfold metricStep
  by_cases hg : (!hasAttrList ic.attrs "data-lucide" && (jsTrim ic.textContent == "")) = true
  · cases hpt : ic.parentText with
    | none => simp [hg, hpt]
    | some pt =>
      simp only [hg, hpt, if_true]
      right
      split_ifs <;> exact ⟨_, rfl⟩
  · simp [hg]

theorem metricStep_idem (ic : MetricIcon) : metricStep (metricStep ic) = metricStep ic := by
  rcases metricStep_cases ic with h | ⟨v, h⟩
  · simp only [h]
  · rw [h]
    exact metricStep_of_hasAttr _ (by simp [hasAttr_setAttr_self])

theorem applyInterface_idem (d : JSDocument)
    (hsend : ∀ b ∈ d.sendButtons, b.sendSvgs.length ≤ 1) :
    applyInterfaceIcons (applyInterfaceIcons d) = applyInterfaceIcons d := by
  obtain ⟨nav, mb, sb, fi, mi⟩ := d
  show JSDocument.mk nav ((mb.map menuStep).map menuStep) ((sb.map sendStep).map sendStep)
      ((fi.map fileStep).map fileStep) ((mi.map metricStep).map metricStep)
    = JSDocument.mk nav (mb.map menuStep) (sb.map sendStep) (fi.map fileStep) (mi.map metricStep)
  congr 1
  · rw [List.map_map]
    exact List.map_congr_left (fun b _ => menuStep_idem b)
  · rw [List.map_map]
    exact List.map_congr_left (fun b hb => sendStep_idem b (hsend b hb))
  · rw [List.map_map]
    exact List.map_congr_left (fun ic _ => fileStep_idem ic)
  · rw [List.map_map]
    exact List.map_congr_left (fun ic _ => metricStep_idem ic)

theorem interface_navItems (d : JSDocument) :
    (applyInterfaceIcons d).navItems = d.navItems := rfl

theorem applyIcons_of_nav_none (d : JSDocument)
    (h : (applyNavigationIcons d.navItems).2 = none) :
    applyIcons d = (applyInterfaceIcons d, none) := by
  obtain ⟨nav, mb, sb, fi, mi⟩ := d
  unfold applyIcons
  cases hn : applyNavigationIcons (JSDocument.mk nav mb sb fi mi).navItems with
  | mk nav' e =>
    cases e with
    | some err =>
      rw [hn] at h
      exact absurd h (by simp)
    | none =>
      have hnav : nav' = nav := by
        have h2 := applyNav_none_eq _ h
        rw [hn] at h2
        exact h2
      subst hnav
      rfl

/-- Claim C9: counterexample.  On a document whose single send button holds
two `svg.send-icon` elements, `querySelector` finds only the first per run:
the first run leaves one svg behind and the second run replaces it too, so
running `applyIcons` twice produces a document different from running it
once (two `send` icons instead of one). -/
theorem applyIcons_not_idempotent_cex :
    (applyIcons ((applyIcons twoSvgDoc).1)).1.sendButtons.map SendButton.lucideDescs
      ≠ (applyIcons twoSvgDoc).1.sendButtons.map SendButton.lucideDescs := by decide

/-- Claim C9 as amended: `applyIcons` is idempotent on every document on
which it completes without raising an error and whose send buttons each
contain at most one `svg.send-icon` element.  (The two exceptions are real:
a run aborted by the navigation TypeError leaves work a second run picks
up, and a second svg in one send button is only replaced by the second
run.) -/
theorem applyIcons_idem_cond (d : JSDocument)
    (herr : (applyIcons d).2 = none)
    (hsend : ∀ b ∈ d.sendButtons, b.sendSvgs.length ≤ 1) :
    applyIcons ((applyIcons d).1) = applyIcons d := by
  have h1 : (applyNavigationIcons d.navItems).2 = none := by
    unfold applyIcons at herr
    cases hn : applyNavigationIcons d.navItems with
    | mk nav' e =>
      cases e with
      | some err =>
        rw [hn] at herr
        simp at herr
      | none => rfl
  have h2 := applyIcons_of_nav_none d h1
  rw [h2]
  show applyIcons (applyInterfaceIcons d) = (applyInterfaceIcons d, none)
  have h3 : (applyNavigationIcons (applyInterfaceIcons d).navItems).2 = none := by
    rw [interface_navItems]
    exact h1
  have h4 := applyIcons_of_nav_none (applyInterfaceIcons d) h3
  rw [h4, applyInterface_idem d hsend]

/-- Witness for the amended C9 on a document with one send svg. -/
theorem applyIcons_idem_cond_w :
    (applyIcons oneSvgDoc).2 = none ∧
    (∀ b ∈ oneSvgDoc.sendButtons, b.sendSvgs.length ≤ 1) ∧
    applyIcons ((applyIcons oneSvgDoc).1) = applyIcons oneSvgDoc :=
  ⟨rfl, by decide, applyIcons_idem_cond oneSvgDoc rfl (by decide)⟩

/-! ## Claim C6 -/

/-- Claim C6: for a `.file-icon` with empty trimmed text, no `data-lucide`
attribute, and an ancestor card: text containing `estudante` (without the
higher-priority `professor` or `teacher`) yields the student icon `user`;
text containing none of the recognized substrings yields the generic
fallback `folder`. -/
theorem fileStep_contextual (ic : FileIcon) (pt : String)
    (hattr : hasAttrList ic.attrs "data-lucide" = false)
    (htrim : jsTrim ic.textContent = "")
    (hpt : ic.parentText = some pt) :
    (hasSub (jsToLower pt) "estudante" = true →
     hasSub (jsToLower pt) "professor" = false →
     hasSub (jsToLower pt) "teacher" = false →
     fileStep ic = { ic with attrs := setAttrList ic.attrs "data-lucide" "user" }) ∧
    (hasSub (jsToLower pt) "professor" = false →
     hasSub (jsToLower pt) "teacher" = false →
     hasSub (jsToLower pt) "estudante" = false →
     hasSub (jsToLower pt) "student" = false →
     hasSub (jsToLower pt) "analytics" = false →
     hasSub (jsToLower pt) "métricas" = false →
     fileStep ic = { ic with attrs := setAttrList ic.attrs "data-lucide" "folder" }) := by
  constructor
  · intro h1 h2 h3
    unfold fileStep
    simp [hattr, htrim, hpt, h1, h2, h3, iconMapGet_student]
  · intro h1 h2 h3 h4 h5 h6
    unfold fileStep
    simp [hattr, htrim, hpt, h1, h2, h3, h4, h5, h6, iconMapGet_documents]

/-- Witness for C6 on two concrete file icons. -/
theorem fileStep_contextual_w :
    (hasAttrList studentFileIcon.attrs "data-lucide" = false ∧
     jsTrim studentFileIcon.textContent = "" ∧
     studentFileIcon.parentText = some "Estudante Ana" ∧
     fileStep studentFileIcon = { studentFileIcon with attrs := [("data-lucide", "user")] }) ∧
    (plainFileIcon.parentText = some "Resumo geral" ∧
     fileStep plainFileIcon = { plainFileIcon with attrs := [("data-lucide", "folder")] }) := by
  refine ⟨⟨rfl, rfl, rfl, ?_⟩, rfl, ?_⟩
  · exact (fileStep_contextual studentFileIcon "Estudante Ana" rfl rfl rfl).1
      (by decide) (by decide) (by decide)
  · exact (fileStep_contextual plainFileIcon "Resumo geral" rfl rfl rfl).2
      (by decide) (by decide) (by decide) (by decide) (by decide) (by decide)

/-! ## Claim C8 -/

theorem Elt.getAttr_setAttr (e : Elt) (k v : String) :
    (e.setAttr k v).getAttr k = some v := by
  cases e with
  | mk a c => simp [Elt.setAttr, Elt.getAttr, Elt.attrs, getAttr_setAttr_self]

theorem navIconName_ok_mem (href : Option String) (text : String) (s : String)
    (h : navIconName href text = Except.ok s) : s = "" ∨ s ∈ iconMapValues := by
  cases href with
  | none =>
    unfold navIconName at h
    split at h
    · injection h with h1; subst h1; right; decide
    · split at h
      · injection h with h1; subst h1; right; decide
      · exact Except.noConfusion h
  | some hh =>
    unfold navIconName at h
    repeat' split at h
    all_goals first
      | exact Except.noConfusion h
      | (injection h with h1; subst h1; first
          | (left; rfl)
          | (right; decide))

theorem navStep_values (m : NavItem) (v : String)
    (hv : v ∈ navItemValues (navStep m).1) :
    v ∈ navItemValues m ∨ v ∈ iconMapValues := by
  unfold navStep at hv
  cases hic : m.icon with
  | none =>
    simp only [hic] at hv
    exact Or.inl hv
  | some ic =>
    simp only [hic] at hv
    split at hv
    · exact Or.inl hv
    · cases hni : navIconName m.href m.textContent with
      | error e =>
        rw [hni] at hv
        exact Or.inl hv
      | ok iconName =>
        rw [hni] at hv
        simp only [] at hv
        by_cases hne : (iconName == "") = true
        · rw [if_pos hne] at hv
          exact Or.inl hv
        · rw [if_neg hne] at hv
          simp only [navItemValues, Elt.getAttr_setAttr, List.mem_singleton] at hv
          subst hv
          rcases navIconName_ok_mem m.href m.textContent v hni with h0 | h0
          · exact absurd (by simp [h0]) hne
          · exact Or.inr h0

theorem applyNav_values (l : List NavItem) (v : String)
    (hv : v ∈ ((applyNavigationIcons l).1.map navItemValues).flatten) :
    v ∈ ((l.map navItemValues).flatten) ∨ v ∈ iconMapValues := by
  induction l with
  | nil => simp [applyNavigationIcons] at hv
  | cons x rest ih =>
    unfold applyNavigationIcons at hv
    cases hs : navStep x with
    | mk x' e =>
      rw [hs] at hv
      simp only [List.map_cons, List.flatten_cons, List.mem_append] at hv ⊢
      have hx : ∀ w, w ∈ navItemValues x' → w ∈ navItemValues x ∨ w ∈ iconMapValues := by
        intro w hw
        exact navStep_values x w (by rw [hs]; exact hw)
      cases e with
      | some err =>
        simp only [List.map_cons, List.flatten_cons, List.mem_append] at hv
        rcases hv with h | h
        · rcases hx v h with h2 | h2
          · exact Or.inl (Or.inl h2)
          · exact Or.inr h2
        · exact Or.inl (Or.inr h)
      | none =>
        cases hr : applyNavigationIcons rest with
        | mk rest' e' =>
          rw [hr] at hv
          simp only [List.map_cons, List.flatten_cons, List.mem_append] at hv
          rcases hv with h | h
          · rcases hx v h with h2 | h2
            · exact Or.inl (Or.inl h2)
            · exact Or.inr h2
          · have h3 : v ∈ ((applyNavigationIcons rest).1.map navItemValues).flatten := by
              rw [hr]; exact h
            rcases ih h3 with h2 | h2
            · exact Or.inl (Or.inr h2)
            · exact Or.inr h2

theorem menuStep_values (b : MenuButton) (v : String)
    (hv : v ∈ (menuStep b).lucideDescs) : v ∈ b.lucideDescs ∨ v ∈ iconMapValues := by
  unfold menuStep at hv
  split at hv
  · simp at hv
    subst hv
    right; decide
  · exact Or.inl hv

theorem sendStep_values (b : SendButton) (v : String)
    (hv : v ∈ sendButtonValues (sendStep b)) :
    v ∈ sendButtonValues b ∨ v ∈ iconMapValues := by
  unfold sendStep at hv
  cases hs : b.sendSvgs with
  | nil =>
    rw [hs] at hv
    exact Or.inl hv
  | cons x rest =>
    rw [hs] at hv
    have hv2 : v ∈ (b.lucideDescs ++ ["send"]) ++ rest.filterMap id := hv
    have hgoal : v ∈ b.lucideDescs ∨ v ∈ (x :: rest).filterMap id →
        v ∈ sendButtonValues b := by
      intro h
      unfold sendButtonValues
      rw [hs]
      simpa [List.mem_append] using h
    simp only [List.mem_append, List.mem_singleton] at hv2
    rcases hv2 with (h | h) | h
    · exact Or.inl (hgoal (Or.inl h))
    · subst h
      right; decide
    · refine Or.inl (hgoal (Or.inr ?_))
      cases x with
      | none => simpa [List.filterMap_cons] using h
      | some w =>
        simp only [List.filterMap_cons, id]
        exact List.mem_cons_of_mem w h

theorem fileStep_values (ic : FileIcon) (v : String)
    (hv : v ∈ fileIconValues (fileStep ic)) :
    v ∈ fileIconValues ic ∨ v ∈ iconMapValues := by
  unfold fileStep at hv
  by_cases hg : (!hasAttrList ic.attrs "data-lucide" && (jsTrim ic.textContent == "")) = true
  · cases hpt : ic.parentText with
    | none =>
      rw [hpt] at hv
      simp only [hg, if_true] at hv
      exact Or.inl hv
    | some pt =>
      rw [hpt] at hv
      simp only [hg, if_true] at hv
      by_cases c1 : (hasSub (jsToLower pt) "professor" || hasSub (jsToLower pt) "teacher") = true
      · rw [if_pos c1] at hv
        simp only [fileIconValues, getAttr_setAttr_self, List.mem_singleton] at hv
        subst hv; right; decide
      · rw [if_neg c1] at hv
        by_cases c2 : (hasSub (jsToLower pt) "estudante" || hasSub (jsToLower pt) "student") = true
        · rw [if_pos c2] at hv
          simp only [fileIconValues, getAttr_setAttr_self, List.mem_singleton] at hv
          subst hv; right; decide
        · rw [if_neg c2] at hv
          by_cases c3 : (hasSub (jsToLower pt) "analytics" || hasSub (jsToLower pt) "métricas") = true
          · rw [if_pos c3] at hv
            simp only [fileIconValues, getAttr_setAttr_self, List.mem_singleton] at hv
            subst hv; right; decide
          · rw [if_neg c3] at hv
            simp only [fileIconValues, getAttr_setAttr_self, List.mem_singleton] at hv
            subst hv; right; decide
  · simp only [hg, if_false, Bool.false_eq_true] at hv
    exact Or.inl hv

theorem metricStep_values (ic : MetricIcon) (v : String)
    (hv : v ∈ metricIconValues (metricStep ic)) :
    v ∈ metricIconValues ic ∨ v ∈ iconMapValues ∨ v = "message-circle" ∨ v = "book" := by
  unfold metricStep at hv
  by_cases hg : (!hasAttrList ic.attrs "data-lucide" && (jsTrim ic.textContent == "")) = true
  · cases hpt : ic.parentText with
    | none =>
      rw [hpt] at hv
      simp only [hg, if_true] at hv
      exact Or.inl hv
    | some pt =>
      rw [hpt] at hv
      simp only [hg, if_true] at hv
      by_cases c1 : (hasSub (jsToLower pt) "pergunta" || hasSub (jsToLower pt) "questão") = true
      · rw [if_pos c1] at hv
        simp only [metricIconValues, getAttr_setAttr_self, List.mem_singleton] at hv
        subst hv; right; right; left; rfl
      · rw [if_neg c1] at hv
        by_cases c2 : (hasSub (jsToLower pt) "estudante" || hasSub (jsToLower pt) "usuário") = true
        · rw [if_pos c2] at hv
          simp only [metricIconValues, getAttr_setAttr_self, List.mem_singleton] at hv
          subst hv; right; left; decide
        · rw [if_neg c2] at hv
          by_cases c3 : (hasSub (jsToLower pt) "disciplina" || hasSub (jsToLower pt) "matéria") = true
          · rw [if_pos c3] at hv
            simp only [metricIconValues, getAttr_setAttr_self, List.mem_singleton] at hv
            subst hv; right; right; right; rfl
          · rw [if_neg c3] at hv
            by_cases c4 : (hasSub (jsToLower pt) "tempo" || hasSub (jsToLower pt) "resposta") = true
            · rw [if_pos c4] at hv
              simp only [metricIconValues, getAttr_setAttr_self, List.mem_singleton] at hv
              subst hv; right; left; decide
            · rw [if_neg c4] at hv
              simp only [metricIconValues, getAttr_setAttr_self, List.mem_singleton] at hv
              subst hv; right; left; decide
  · simp only [hg, if_false, Bool.false_eq_true] at hv
    exact Or.inl hv

theorem mem_vals_map {α : Type} {vals : α → List String} {P : String → Prop} {f : α → α}
    (hstep : ∀ x w, w ∈ vals (f x) → w ∈ vals x ∨ P w) :
    ∀ (l : List α) (w : String), w ∈ ((l.map f).map vals).flatten →
      w ∈ (l.map vals).flatten ∨ P w := by
  intro l
  induction l with
  | nil => intro w hw; simp at hw
  | cons x rest ih =>
    intro w hw
    simp only [List.map_cons, List.flatten_cons, List.mem_append] at hw ⊢
    rcases hw with h | h
    · rcases hstep x w h with h2 | h2
      · exact Or.inl (Or.inl h2)
      · exact Or.inr h2
    · rcases ih w h with h2 | h2
      · exact Or.inl (Or.inr h2)
      · exact Or.inr h2

theorem mem_lucideValuesDoc (d : JSDocument) (v : String) :
    v ∈ lucideValuesDoc d ↔
      v ∈ (d.navItems.map navItemValues).flatten ∨
      v ∈ (d.menuButtons.map MenuButton.lucideDescs).flatten ∨
      v ∈ (d.sendButtons.map sendButtonValues).flatten ∨
      v ∈ (d.fileIcons.map fileIconValues).flatten ∨
      v ∈ (d.metricIcons.map metricIconValues).flatten := by
  unfold lucideValuesDoc
  simp [List.mem_append, or_assoc]

/-- Claim C8: counterexample.  The metric pass writes the literal
`message-circle` (line 150), which is not a value of the lookup table, so
the claim that every assigned identifier is a table value is false on a
document whose metric card mentions `Perguntas`. -/
theorem metric_literal_outside_table_cex :
    (applyIcons perguntaDoc).1.metricIcons.map (fun ic => getAttrList ic.attrs "data-lucide")
      = [some "message-circle"] ∧ "message-circle" ∉ iconMapValues :=
  ⟨rfl, by decide⟩

/-- Claim C8 as amended: every `data-lucide` identifier present after
`applyIcons` was either present before, or is a value of the lookup table,
or is one of the two literals `message-circle` and `book` that the metric
pass hard-codes (lines 150 and 154) without going through the table. -/
theorem assigned_values_provenance (d : JSDocument) (v : String)
    (hv : v ∈ lucideValuesDoc (applyIcons d).1) :
    v ∈ lucideValuesDoc d ∨ v ∈ iconMapValues ∨ v = "message-circle" ∨ v = "book" := by
  unfold applyIcons at hv
  cases hn : applyNavigationIcons d.navItems with
  | mk nav' e =>
    rw [hn] at hv
    have hnav : ∀ w, w ∈ (nav'.map navItemValues).flatten →
        w ∈ (d.navItems.map navItemValues).flatten ∨ w ∈ iconMapValues := by
      intro w hw
      apply applyNav_values d.navItems w
      rw [hn]
      exact hw
    rw [mem_lucideValuesDoc d v]
    cases e with
    | some err =>
      rw [mem_lucideValuesDoc] at hv
      rcases hv with h | h | h | h | h
      · rcases hnav v h with h2 | h2
        · exact Or.inl (Or.inl h2)
        · exact Or.inr (Or.inl h2)
      · exact Or.inl (Or.inr (Or.inl h))
      · exact Or.inl (Or.inr (Or.inr (Or.inl h)))
      · exact Or.inl (Or.inr (Or.inr (Or.inr (Or.inl h))))
      · exact Or.inl (Or.inr (Or.inr (Or.inr (Or.inr h))))
    | none =>
      rw [mem_lucideValuesDoc] at hv
      rcases hv with h | h | h | h | h
      · rcases hnav v h with h2 | h2
        · exact Or.inl (Or.inl h2)
        · exact Or.inr (Or.inl h2)
      · rcases mem_vals_map menuStep_values d.menuButtons v h with h2 | h2
        · exact Or.inl (Or.inr (Or.inl h2))
        · exact Or.inr (Or.inl h2)
      · rcases mem_vals_map sendStep_values d.sendButtons v h with h2 | h2
        · exact Or.inl (Or.inr (Or.inr (Or.inl h2)))
        · exact Or.inr (Or.inl h2)
      · rcases mem_vals_map fileStep_values d.fileIcons v h with h2 | h2
        · exact Or.inl (Or.inr (Or.inr (Or.inr (Or.inl h2))))
        · exact Or.inr (Or.inl h2)
      · rcases mem_vals_map metricStep_values d.metricIcons v h with h2 | h2
        · exact Or.inl (Or.inr (Or.inr (Or.inr (Or.inr h2))))
        · exact Or.inr h2

/-- Witness for the amended C8: the identifier assigned on `perguntaDoc`
is accounted for by the `message-circle` literal. -/
theorem assigned_values_provenance_w :
    "message-circle" ∈ lucideValuesDoc (applyIcons perguntaDoc).1 ∧
    ("message-circle" ∈ lucideValuesDoc perguntaDoc ∨ "message-circle" ∈ iconMapValues ∨
      "message-circle" = "message-circle" ∨ "message-circle" = "book") :=
  ⟨by decide, assigned_values_provenance perguntaDoc "message-circle" (by decide)⟩
